import Mathlib

/-!
Verification development for the Jarvis desktop client renderer.

The repository file src/frontend/renderer.js contains two concatenated
revisions of the renderer:

* a text-mode streaming revision (modelled in namespace TextRenderer):
  session id, an isThinking input lock driven by setInputLock, a chat
  history of rendered messages, a streaming submission pipeline over
  the stream_chat endpoint, and a clear-history action gated by the lock
  and by a confirmation dialog;

* a voice-polling revision (modelled in namespace VoiceRenderer): the
  five-state UI machine (IDLE, HANDSHAKE, QUERYING, THINKING, SPEAKING),
  the checkBackendStatus poll loop with its activePolls counter and
  audio-playing suppression, audio playback with completion callbacks,
  and a submission pipeline over the chat and speak endpoints.

States are records of the mutable globals and of the DOM fields the code
writes (disabled flags, innerText contents, message list, audio element).
Network interactions are driven by explicit oracles describing the
backend responses (success data or a transport failure), and each
invocation of an asynchronous handler is a pure function from a state
and an oracle to a state.  Requests initiated by an invocation are
accumulated in a reqLog field.  For the voice revision, interleavings of
the event loop are captured by a small-step Reachable relation whose
steps are timer ticks of the poll loop (split at its await points into
begin and end), user input, submission completions and audio-playback
completions.
-/

/-- Whitespace test used by the model of the JavaScript string trim method. -/
def isJsWhitespace (c : Char) : Bool :=
  c == ' ' || c == '\t' || c == '\n' || c == '\r'

/-- Model of the JavaScript trim(): removes whitespace from both ends.
Defined on the character list so that it evaluates by kernel reduction. -/
def strTrim (s : String) : String :=
  String.mk (((s.data.dropWhile isJsWhitespace).reverse.dropWhile isJsWhitespace).reverse)

/-- The character for a single decimal digit. -/
def digitChar (d : Nat) : Char := Char.ofNat (48 + d)

/-- Fuel-driven little-endian decimal digits, structurally recursive so
that concrete values evaluate by kernel reduction. -/
def decDigitsAux : Nat → Nat → List Nat
  | 0, _ => []
  | _ + 1, 0 => []
  | fuel + 1, n + 1 => ((n + 1) % 10) :: decDigitsAux fuel ((n + 1) / 10)

/-- Little-endian decimal digits of a natural number. -/
def decDigits (n : Nat) : List Nat := decDigitsAux n n

/-- Decimal rendering of a natural number, as JavaScript template
interpolation renders a number. -/
def natDecimal (n : Nat) : String :=
  if n = 0 then "0" else String.mk ((decDigits n |>.map digitChar).reverse)

/-- Session identifiers: the template jarvis_session_(Date.now()) used by
both renderer revisions. -/
def mkSessionId (t : Nat) : String := "jarvis_session_" ++ natDecimal t

namespace TextRenderer

/-- UI states of the text-mode revision: its UI_STATE table has exactly
IDLE and THINKING. -/
inductive UIState
  | IDLE
  | THINKING
  deriving DecidableEq

/-- The text field of each UI_STATE entry. -/
def stateText : UIState → String
  | UIState.IDLE => "Text Mode Active — Ready for input."
  | UIState.THINKING => "Jarvis is thinking..."

/-- The pulsing field of each UI_STATE entry. -/
def statePulsing : UIState → Bool
  | UIState.IDLE => false
  | UIState.THINKING => true

/-- Backend requests the text-mode revision can issue. -/
inductive Req
  | streamChat
  deriving DecidableEq

/-- State of the text-mode renderer: the globals currentSessionId and
isThinking, and the DOM fields the code writes. -/
structure St where
  sessionId : String
  interaction : UIState
  isThinking : Bool
  inputDisabled : Bool
  sendDisabled : Bool
  clearDisabled : Bool
  placeholder : String
  statusTextContent : String
  statusDivContent : String
  pulseOn : Bool
  messages : List String
  inputValue : String
  deriving DecidableEq

/-- setInputLock: disables or enables the three controls, records the
lock in isThinking and swaps the placeholder text. -/
def setInputLock (s : St) (isLocked : Bool) : St :=
  { s with
      inputDisabled := isLocked
      sendDisabled := isLocked
      clearDisabled := isLocked
      isThinking := isLocked
      placeholder :=
        if isLocked then "Jarvis is processing your request..."
        else "Ask a question, Boss (Text Mode)..." }

/-- updateUI: writes the status texts and pulse flag, then locks the
input exactly when the new state is THINKING. -/
def updateUI (s : St) (state : UIState) (customText : Option String) : St :=
  let text := customText.getD (stateText state)
  let s1 := { s with
      statusTextContent := text
      pulseOn := statePulsing state
      statusDivContent := text
      interaction := state }
  setInputLock s1 (state == UIState.THINKING)

/-- displayMessage: appends one rendered chat bubble to the history. -/
def displayMessage (s : St) (sender text : String) : St :=
  { s with messages := s.messages ++ ["<strong>" ++ sender ++ ":</strong> " ++ text] }

/-- Result of the clear-history action: refusal while locked, clearing
after the user confirms, or nothing when the dialog is declined. -/
inductive ClearResult
  | refused
  | cleared
  | cancelled
  deriving DecidableEq

/-- clearChatHistory: refuses while isThinking; otherwise asks confirm()
and, only when confirmed, wipes the history, regenerates the session id
from the current timestamp and resets the UI to IDLE. -/
def clearChatHistory (s : St) (confirmAnswer : Bool) (now : Nat) : ClearResult × St :=
  if s.isThinking then (ClearResult.refused, s)
  else if confirmAnswer then
    let s1 := { s with messages := [], sessionId := mkSessionId now }
    (ClearResult.cleared, updateUI s1 UIState.IDLE (some "Session Cleared. Ready for new query."))
  else (ClearResult.cancelled, s)

/-- Outcome of one stream_chat call: the streamed chunk sequence on
success, or an HTTP error status, or a network failure message. -/
inductive StreamOutcome
  | ok (chunks : List String)
  | httpErr (status : Nat)
  | netErr (msg : String)

/-- The accumulation fullText += chunk performed by the reader loop. -/
def streamFold (chunks : List String) : String :=
  chunks.foldl (fun acc c => acc ++ c) ""

/-- The innerHTML the reader loop writes into the streamed message. -/
def jarvisRender (fullText : String) : String := "<strong>Jarvis:</strong> " ++ fullText

/-- Result of submitTextQuery: the resolved string, the state after the
DOM writes, and the requests issued. -/
structure QueryResult where
  response : String
  st : St
  reqs : List Req
  deriving DecidableEq

/-- submitTextQuery of the text-mode revision: posts to stream_chat,
appends a single Jarvis message container, accumulates the chunks into
it, and resolves to the trimmed accumulation; any failure resolves to
the apologetic message embedding the failure reason (never throws). -/
def submitTextQuery (s : St) (question : String) (o : StreamOutcome) : QueryResult :=
  match o with
  | StreamOutcome.ok chunks =>
      let fullText := streamFold chunks
      { response := strTrim fullText
        st := { s with messages := s.messages ++ [jarvisRender fullText] }
        reqs := [Req.streamChat] }
  | StreamOutcome.httpErr status =>
      { response := "My apologies, Boss. The RAG system encountered an error (HTTP "
          ++ natDecimal status ++ ")."
        st := s
        reqs := [Req.streamChat] }
  | StreamOutcome.netErr msg =>
      { response := "My apologies, Boss. The RAG system encountered an error (" ++ msg ++ ")."
        st := s
        reqs := [Req.streamChat] }

/-- Result of one submission: final state, the value submitTextQuery
resolved to (none when the send was rejected), and the requests issued. -/
structure SubResult where
  st : St
  response : Option String
  reqs : List Req
  deriving DecidableEq

/-- handleChatSubmission of the text-mode revision: shows the user
message, locks via THINKING, awaits submitTextQuery, then returns to
IDLE and unlocks.  The resolved response value is not displayed here. -/
def handleChatSubmission (s : St) (question : String) (o : StreamOutcome) : SubResult :=
  let s1 := displayMessage s "Boss" question
  let s2 := updateUI s1 UIState.THINKING (some "Processing your query...")
  let q := submitTextQuery s2 question o
  let s3 := updateUI q.st UIState.IDLE (some "Text Mode Active")
  let s4 := setInputLock s3 false
  { st := s4, response := some q.response, reqs := q.reqs }

/-- The send-button click listener: trims the input, rejects when empty
or while isThinking, otherwise clears the input and submits. -/
def sendClick (s : St) (o : StreamOutcome) : SubResult :=
  let question := strTrim s.inputValue
  if question = "" || s.isThinking then { st := s, response := none, reqs := [] }
  else handleChatSubmission { s with inputValue := "" } question o

/-- The Enter keypress listener: prevents the default and clicks the
send button. -/
def enterKeypress (s : St) (o : StreamOutcome) : SubResult := sendClick s o

/-- Startup state: fresh session id from the startup timestamp, then the
DOMContentLoaded handler runs updateUI(IDLE). -/
def initSt (t0 : Nat) : St :=
  updateUI
    { sessionId := mkSessionId t0
      interaction := UIState.IDLE
      isThinking := false
      inputDisabled := false
      sendDisabled := false
      clearDisabled := false
      placeholder := ""
      statusTextContent := ""
      statusDivContent := ""
      pulseOn := false
      messages := []
      inputValue := "" }
    UIState.IDLE none

/-- The accumulated text after the reader loop has consumed i chunks. -/
def fullTextAfter (chunks : List String) (i : Nat) : String := streamFold (chunks.take i)

/-- The innerHTML of the streamed message after i chunks. -/
def renderedAfter (chunks : List String) (i : Nat) : String := jarvisRender (fullTextAfter chunks i)

end TextRenderer

namespace VoiceRenderer

/-- The configured backend base address. -/
def API_URL : String := "http://127.0.0.1:8000"

/-- The poll-concurrency bound of the voice revision. -/
def MAX_CONCURRENT_POLLS : Nat := 1

/-- UI states of the voice revision. -/
inductive UIState
  | IDLE
  | HANDSHAKE
  | QUERYING
  | THINKING
  | SPEAKING
  deriving DecidableEq

/-- The text field of each UI_STATE entry. -/
def stateText : UIState → String
  | UIState.IDLE => "Listening for \x27Hey Jarvis\x27"
  | UIState.HANDSHAKE => "Hey Boss, what\x27s up?"
  | UIState.QUERYING => "Listening..."
  | UIState.THINKING => "Processing RAG..."
  | UIState.SPEAKING => "Speaking..."

/-- The dot field of each UI_STATE entry. -/
def stateDot : UIState → Bool
  | UIState.IDLE => false
  | UIState.HANDSHAKE => true
  | UIState.QUERYING => true
  | UIState.THINKING => false
  | UIState.SPEAKING => false

/-- The pulsing field of each UI_STATE entry. -/
def statePulsing : UIState → Bool
  | UIState.IDLE => false
  | UIState.HANDSHAKE => true
  | UIState.QUERYING => true
  | UIState.THINKING => true
  | UIState.SPEAKING => false

/-- The source mode of a submission. -/
inductive Mode
  | voice
  | text
  deriving DecidableEq

/-- Backend requests the voice revision can issue. -/
inductive Req
  | getHandshake
  | getVoiceQuery
  | chat
  | speak
  deriving DecidableEq

/-- Which completion callback playAudio registered. -/
inductive CbKind
  | toQuerying
  | toIdle
  deriving DecidableEq

/-- State of the voice renderer: the globals of the revision, the DOM
fields it writes, the audio element, the multiset of submissions whose
awaits are outstanding, and the accumulated request log. -/
structure St where
  sessionId : String
  interaction : UIState
  statusTextContent : String
  statusDivContent : String
  micDotOn : Bool
  pulseOn : Bool
  currentMode : Mode
  currentAudioUrl : Option String
  audioSrc : Option String
  audioPaused : Bool
  pendingAudioCallback : Option CbKind
  activePolls : Nat
  inputDisabled : Bool
  sendDisabled : Bool
  inputValue : String
  pendingSubs : List Mode
  reqLog : List Req
  deriving DecidableEq

/-- updateUI of the voice revision: statusText takes the custom text if
given, statusDiv always takes the state text; no control is ever
disabled or enabled here. -/
def updateUI (s : St) (state : UIState) (customText : Option String) : St :=
  { s with
      statusTextContent := customText.getD (stateText state)
      micDotOn := stateDot state
      pulseOn := statePulsing state
      statusDivContent := stateText state
      interaction := state }

/-- playAudio: stores the url, registers the one-shot completion
callback, shows SPEAKING, and starts playback. -/
def playAudio (s : St) (url : String) (cb : CbKind) : St :=
  let s1 := { s with
      audioSrc := some url
      currentAudioUrl := some url
      pendingAudioCallback := some cb }
  let s2 := updateUI s1 UIState.SPEAKING none
  { s2 with audioPaused := false }

/-- Playback completion (the onended handler, or onerror which is logged
and treated identically except for the status text): resets to IDLE and
fires the registered callback once. -/
def audioComplete (s : St) (errored : Bool) : St :=
  let s1 := { s with audioPaused := true }
  let s2 :=
    if errored then updateUI s1 UIState.IDLE (some "Audio Playback Error!")
    else updateUI s1 UIState.IDLE none
  match s2.pendingAudioCallback with
  | some CbKind.toQuerying => { (updateUI s2 UIState.QUERYING none) with pendingAudioCallback := none }
  | some CbKind.toIdle => { (updateUI s2 UIState.IDLE none) with pendingAudioCallback := none }
  | none => s2

/-- Outcome of one chat call. -/
inductive ChatOutcome
  | answer (a : String)
  | httpErr (status : Nat)
  | netErr (msg : String)
  deriving DecidableEq

/-- submitTextQuery of the voice revision: resolves to the answer, or on
any failure to the apologetic message embedding the failure reason. -/
def submitTextQuery : ChatOutcome → String
  | ChatOutcome.answer a => a
  | ChatOutcome.httpErr status =>
      "My apologies, Boss. The RAG system encountered an internal error. (HTTP error! Status: "
        ++ natDecimal status ++ ")"
  | ChatOutcome.netErr msg =>
      "My apologies, Boss. The RAG system encountered an internal error. (" ++ msg ++ ")"

/-- Outcome of one speak call. -/
inductive TtsOutcome
  | ok (audio_url : String)
  | fail
  deriving DecidableEq

/-- getAudioURL: resolves the relative audio url against API_URL, or
null on any failure. -/
def getAudioURL : TtsOutcome → Option String
  | TtsOutcome.ok u => some (API_URL ++ u)
  | TtsOutcome.fail => none

/-- Backend outcomes consumed by one submission: the chat response, the
speak response, and whether playback ends with the error handler. -/
structure SubOracle where
  chat : ChatOutcome
  tts : TtsOutcome
  playbackErrored : Bool
  deriving DecidableEq

/-- The synchronous prefix of handleChatSubmission, up to its first
await: records the mode, issues the chat request, and leaves the
submission outstanding. -/
def subStart (s : St) (mode : Mode) : St :=
  { s with
      currentMode := mode
      reqLog := s.reqLog ++ [Req.chat]
      pendingSubs := s.pendingSubs ++ [mode] }

/-- The continuation of handleChatSubmission after the chat response
arrives, for a submission of the given mode.  Voice mode requests
synthesized audio and either starts playback (completion modelled by
audioComplete) or, on speak failure, falls back to showing the text;
text mode shows the response in the status area and clears the input
(the click listener clears it after its await). -/
def subFinish (s : St) (mode : Mode) (o : SubOracle) : St :=
  let s0 := { s with pendingSubs := s.pendingSubs.erase mode }
  let textResponse := submitTextQuery o.chat
  match mode with
  | Mode.voice =>
    let s1 := updateUI s0 UIState.THINKING (some "Generating Jarvis\x27s Reply...")
    let s2 := { s1 with reqLog := s1.reqLog ++ [Req.speak] }
    match getAudioURL o.tts with
    | some url => playAudio s2 url CbKind.toIdle
    | none => updateUI s2 UIState.IDLE (some textResponse)
  | Mode.text =>
    let s1 := updateUI s0 UIState.IDLE (some "Text Mode Active")
    { s1 with statusDivContent := textResponse, inputValue := "" }

/-- One whole submission of the voice revision, from the call to
handleChatSubmission to the point where its effects have quiesced: the
chat exchange, then in voice mode with audio the playback completion. -/
def submissionCycle (s : St) (mode : Mode) (o : SubOracle) : St :=
  let s1 := subFinish (subStart s mode) mode o
  match mode, getAudioURL o.tts with
  | Mode.voice, some _ => audioComplete s1 o.playbackErrored
  | _, _ => s1

/-- Response of the handshake endpoint. -/
structure HandshakeData where
  status : String
  audio_url : Option String
  deriving DecidableEq

/-- Response of the voice-query endpoint. -/
structure QueryData where
  status : String
  query : Option String
  deriving DecidableEq

/-- Backend responses consumed by one poll cycle; an error value is a
network or parse failure of that fetch. -/
structure PollOracle where
  handshake : Except Unit HandshakeData
  voiceQuery : Except Unit QueryData

/-- The suppression guard at the top of checkBackendStatus: a poll is
already in flight, or audio is currently playing.  No other condition is
consulted. -/
def pollGuard (s : St) : Bool :=
  decide (MAX_CONCURRENT_POLLS ≤ s.activePolls) || !s.audioPaused

/-- The synchronous prefix of checkBackendStatus: if the guard holds the
invocation returns at once; otherwise the counter is taken and the
handshake fetch is initiated. -/
def pollBegin (s : St) : St :=
  if pollGuard s then s
  else { s with activePolls := s.activePolls + 1, reqLog := s.reqLog ++ [Req.getHandshake] }

/-- The second phase of the poll body: the voice-query fetch and its
handling, reached only when the handshake branch was not taken. -/
def pollQueryPhase (s : St) (o : PollOracle) : St :=
  let s1 := { s with reqLog := s.reqLog ++ [Req.getVoiceQuery] }
  match o.voiceQuery with
  | Except.error _ => updateUI s1 UIState.IDLE (some "API Error")
  | Except.ok q =>
    match q.query with
    | some query =>
      if q.status = "ready" then
        subStart (updateUI s1 UIState.THINKING (some ("Query: \"" ++ query ++ "\""))) Mode.voice
      else s1
    | none => s1

/-- The body of checkBackendStatus after the handshake response arrives:
the handshake branch (play the handshake clip and exit), else the
voice-query phase; any fetch failure lands in the catch branch showing
API Error at IDLE; the finally branch always releases the counter. -/
def pollBody (s : St) (o : PollOracle) : St :=
  let s1 :=
    match o.handshake with
    | Except.error _ => updateUI s UIState.IDLE (some "API Error")
    | Except.ok h =>
      match h.audio_url with
      | some url =>
        if h.status = "ready" then
          playAudio (updateUI s UIState.HANDSHAKE none) (API_URL ++ url) CbKind.toQuerying
        else pollQueryPhase s o
      | none => pollQueryPhase s o
  { s1 with activePolls := s1.activePolls - 1 }

/-- One whole invocation of checkBackendStatus with the given backend
responses. -/
def checkBackendStatus (s : St) (o : PollOracle) : St :=
  if pollGuard s then s else pollBody (pollBegin s) o

/-- Whether the given poll responses make the body take its catch
branch: the handshake fetch failed, or the handshake branch was not
taken and the voice-query fetch failed. -/
def pollFailure (o : PollOracle) : Bool :=
  match o.handshake with
  | Except.error _ => true
  | Except.ok h =>
    match h.audio_url with
    | some _ =>
      if h.status = "ready" then false
      else
        match o.voiceQuery with
        | Except.error _ => true
        | Except.ok _ => false
    | none =>
      match o.voiceQuery with
      | Except.error _ => true
      | Except.ok _ => false

/-- The send-button click listener of the voice revision: submits
whenever the trimmed input is nonempty; no lock is consulted, and the
input is cleared only after the await (so not here). -/
def sendClick (s : St) : St :=
  let question := strTrim s.inputValue
  if question = "" then s
  else subStart (updateUI s UIState.THINKING (some "Sending Text Query...")) Mode.text

/-- Startup state of the voice revision after DOMContentLoaded ran
updateUI(IDLE). -/
def initSt (t0 : Nat) : St :=
  updateUI
    { sessionId := mkSessionId t0
      interaction := UIState.IDLE
      statusTextContent := ""
      statusDivContent := ""
      micDotOn := false
      pulseOn := false
      currentMode := Mode.voice
      currentAudioUrl := none
      audioSrc := none
      audioPaused := true
      pendingAudioCallback := none
      activePolls := 0
      inputDisabled := false
      sendDisabled := false
      inputValue := ""
      pendingSubs := []
      reqLog := [] }
    UIState.IDLE none

/-- The input lock as the specification defines it for the voice
revision: the THINKING and SPEAKING interaction states. -/
def lockedState (s : St) : Bool :=
  s.interaction == UIState.THINKING || s.interaction == UIState.SPEAKING

/-- Event-loop interleavings of the voice revision: poll invocations
split at their await points, user typing and clicks, submission
completions, and audio-playback completions. -/
inductive Reachable : St → Prop
  | initial (t0 : Nat) : Reachable (initSt t0)
  | typeInput {s : St} (v : String) : Reachable s → Reachable { s with inputValue := v }
  | pollBeginStep {s : St} : Reachable s → Reachable (pollBegin s)
  | pollEndStep {s : St} (o : PollOracle) : Reachable s → 1 ≤ s.activePolls →
      Reachable (pollBody s o)
  | sendClickStep {s : St} : Reachable s → Reachable (sendClick s)
  | subFinishStep {s : St} (m : Mode) (o : SubOracle) : Reachable s → m ∈ s.pendingSubs →
      Reachable (subFinish s m o)
  | audioCompleteStep {s : St} (errored : Bool) : Reachable s → s.audioPaused = false →
      Reachable (audioComplete s errored)

end VoiceRenderer

/-- A handshake response that is not ready. -/
def vrHandshakeWaiting : VoiceRenderer.HandshakeData :=
  { status := "waiting", audio_url := none }

/-- A voice-query response delivering a ready transcription. -/
def vrQueryJoke : VoiceRenderer.QueryData :=
  { status := "ready", query := some "tell me a joke" }

/-- A poll oracle in which neither signal is ready. -/
def vrNothingOracle : VoiceRenderer.PollOracle :=
  { handshake := Except.ok vrHandshakeWaiting
    voiceQuery := Except.ok { status := "waiting", query := none } }

/-- A poll oracle in which the voice query is ready. -/
def vrQueryReadyOracle : VoiceRenderer.PollOracle :=
  { handshake := Except.ok vrHandshakeWaiting
    voiceQuery := Except.ok vrQueryJoke }

/-- A poll oracle whose handshake response reports status ready but
carries no audio url. -/
def vrReadyNoUrlOracle : VoiceRenderer.PollOracle :=
  { handshake := Except.ok { status := "ready", audio_url := none }
    voiceQuery := Except.ok { status := "waiting", query := none } }

/-- A poll oracle in which both fetches fail. -/
def vrBothFailOracle : VoiceRenderer.PollOracle :=
  { handshake := Except.error (), voiceQuery := Except.error () }

/-- A poll oracle whose handshake response is ready and carries an
audio url. -/
def vrHsReadyOracle : VoiceRenderer.PollOracle :=
  { handshake := Except.ok { status := "ready", audio_url := some "/audio/hs.wav" }
    voiceQuery := Except.ok { status := "waiting", query := none } }

/-- The state reached from startup by one full poll cycle that retrieves
a ready voice query: the submission has been dispatched, the interaction
state is THINKING, the counter is released and no audio is playing. -/
def vrThinkingSt : VoiceRenderer.St :=
  VoiceRenderer.pollBody (VoiceRenderer.pollBegin (VoiceRenderer.initSt 0)) vrQueryReadyOracle

/-- Startup state of the voice revision with hello typed into the chat
input. -/
def vrTypedSt : VoiceRenderer.St :=
  { VoiceRenderer.initSt 0 with inputValue := "hello" }

/-- State after the send button is clicked once on vrTypedSt. -/
def vrOneClickSt : VoiceRenderer.St := VoiceRenderer.sendClick vrTypedSt

/-- State after the send button is clicked a second time while the first
submission is still outstanding. -/
def vrTwoClickSt : VoiceRenderer.St := VoiceRenderer.sendClick vrOneClickSt

/-- An unlocked text-renderer state holding one displayed message. -/
def trMsgSt : TextRenderer.St :=
  TextRenderer.displayMessage (TextRenderer.initSt 0) "Boss" "hi"

/-- The fuel-driven digits agree with Mathlib digits when the fuel
bounds the number. -/
theorem decDigitsAux_eq_digits : ∀ fuel n : Nat, n ≤ fuel → decDigitsAux fuel n = Nat.digits 10 n := by
  intro fuel
  induction fuel with
  | zero =>
    intro n hn
    interval_cases n
    simp [decDigitsAux]
  | succ fuel ih =>
    intro n hn
    match n with
    | 0 => simp [decDigitsAux]
    | m + 1 =>
      have hdiv : (m + 1) / 10 ≤ fuel := by
        have := Nat.div_lt_self (Nat.succ_pos m) (by norm_num : 1 < 10)
        omega
      rw [decDigitsAux, ih _ hdiv, ← Nat.digits_def' (by norm_num : 1 < 10) (Nat.succ_pos m)]

/-- The executable digits equal Mathlib digits in base ten. -/
theorem decDigits_eq_digits (n : Nat) : decDigits n = Nat.digits 10 n :=
  decDigitsAux_eq_digits n n (Nat.le_refl n)

/-- Distinct decimal digits render as distinct characters. -/
theorem digitChar_inj_lt : ∀ a : Nat, a < 10 → ∀ b : Nat, b < 10 → digitChar a = digitChar b → a = b := by
  decide

/-- Rendering digit lists characterwise is injective on digit lists. -/
theorem map_digitChar_inj : ∀ la lb : List Nat, (∀ d ∈ la, d < 10) → (∀ d ∈ lb, d < 10) →
    la.map digitChar = lb.map digitChar → la = lb := by
  intro la
  induction la with
  | nil =>
    intro lb _ _ h
    cases lb with
    | nil => rfl
    | cons b bs => simp at h
  | cons a as ih =>
    intro lb ha hb h
    cases lb with
    | nil => simp at h
    | cons b bs =>
      simp only [List.map_cons, List.cons.injEq] at h
      have hab := digitChar_inj_lt a (ha a (by simp)) b (hb b (by simp)) h.1
      have htail := ih bs (fun d hd => ha d (by simp [hd])) (fun d hd => hb d (by simp [hd])) h.2
      simp [hab, htail]

/-- All executable digits are below the base. -/
theorem decDigits_lt_ten (n : Nat) : ∀ d ∈ decDigits n, d < 10 := by
  intro d hd
  rw [decDigits_eq_digits] at hd
  exact Nat.digits_lt_base (by norm_num) hd

/-- The decimal rendering of naturals is injective. -/
theorem natDecimal_inj {a b : Nat} (h : natDecimal a = natDecimal b) : a = b := by
  unfold natDecimal at h
  by_cases ha : a = 0 <;> by_cases hb : b = 0
  · omega
  · exfalso
    rw [if_pos ha, if_neg hb] at h
    have hdata : (['0'] : List Char) = ((decDigits b).map digitChar).reverse :=
      congrArg String.data h
    have hrev : (decDigits b).map digitChar = ['0'] := by
      have := congrArg List.reverse hdata
      simpa using this.symm
    have h0 : (decDigits b).map digitChar = ([0] : List Nat).map digitChar := by
      simpa [digitChar] using hrev
    have hzero : decDigits b = [0] := map_digitChar_inj _ _ (decDigits_lt_ten b) (by simp) h0
    rw [decDigits_eq_digits] at hzero
    have := congrArg (Nat.ofDigits 10) hzero
    rw [Nat.ofDigits_digits] at this
    simp [Nat.ofDigits] at this
    omega
  · exfalso
    rw [if_pos hb, if_neg ha] at h
    have hdata : ((decDigits a).map digitChar).reverse = ['0'] :=
      congrArg String.data h
    have hrev : (decDigits a).map digitChar = ['0'] := by
      have := congrArg List.reverse hdata
      simpa using this
    have h0 : (decDigits a).map digitChar = ([0] : List Nat).map digitChar := by
      simpa [digitChar] using hrev
    have hzero : decDigits a = [0] := map_digitChar_inj _ _ (decDigits_lt_ten a) (by simp) h0
    rw [decDigits_eq_digits] at hzero
    have := congrArg (Nat.ofDigits 10) hzero
    rw [Nat.ofDigits_digits] at this
    simp [Nat.ofDigits] at this
    omega
  · rw [if_neg ha, if_neg hb] at h
    have hdata : ((decDigits a).map digitChar).reverse = ((decDigits b).map digitChar).reverse := by
      injection h
    have hmap : (decDigits a).map digitChar = (decDigits b).map digitChar :=
      List.reverse_injective hdata
    have hd : decDigits a = decDigits b :=
      map_digitChar_inj _ _ (decDigits_lt_ten a) (decDigits_lt_ten b) hmap
    rw [decDigits_eq_digits, decDigits_eq_digits] at hd
    have := congrArg (Nat.ofDigits 10) hd
    rwa [Nat.ofDigits_digits, Nat.ofDigits_digits] at this

/-- Session identifiers generated at distinct timestamps differ. -/
theorem mkSessionId_inj {a b : Nat} (h : mkSessionId a = mkSessionId b) : a = b := by
  unfold mkSessionId at h
  have hdata := congrArg String.data h
  simp only [String.data_append] at hdata
  have := List.append_cancel_left hdata
  exact natDecimal_inj (String.ext this)

/-- Folding string concatenation from an arbitrary accumulator. -/
theorem foldl_append_eq (l : List String) : ∀ s : String,
    l.foldl (fun acc c => acc ++ c) s = s ++ TextRenderer.streamFold l := by
  induction l with
  | nil => intro s; simp [TextRenderer.streamFold]
  | cons c cs ih =>
    intro s
    simp only [TextRenderer.streamFold, List.foldl_cons] at *
    rw [ih (s ++ c), ih ("" ++ c)]
    simp [String.append_assoc]

/-- The accumulator distributes over list append. -/
theorem streamFold_append (l l2 : List String) :
    TextRenderer.streamFold (l ++ l2) = TextRenderer.streamFold l ++ TextRenderer.streamFold l2 := by
  unfold TextRenderer.streamFold
  rw [List.foldl_append]
  exact foldl_append_eq l2 _

/-- A false poll guard means no poll is in flight and no audio plays. -/
theorem vr_pollGuard_false {s : VoiceRenderer.St} (h : VoiceRenderer.pollGuard s = false) :
    s.activePolls = 0 ∧ s.audioPaused = true := by
  simp [VoiceRenderer.pollGuard, VoiceRenderer.MAX_CONCURRENT_POLLS] at h
  exact ⟨by omega, h.2⟩

/-- The poll guard holds exactly when a poll is outstanding or audio is
playing. -/
theorem vr_pollGuard_iff (s : VoiceRenderer.St) :
    VoiceRenderer.pollGuard s = true ↔ (1 ≤ s.activePolls ∨ s.audioPaused = false) := by
  cases hp : s.audioPaused <;>
    simp [VoiceRenderer.pollGuard, VoiceRenderer.MAX_CONCURRENT_POLLS, hp]

/-- The voice-query phase does not touch the poll counter or the control
flags. -/
theorem vr_pollQueryPhase_preserved (s : VoiceRenderer.St) (o : VoiceRenderer.PollOracle) :
    (VoiceRenderer.pollQueryPhase s o).activePolls = s.activePolls ∧
    (VoiceRenderer.pollQueryPhase s o).inputDisabled = s.inputDisabled ∧
    (VoiceRenderer.pollQueryPhase s o).sendDisabled = s.sendDisabled := by
  rcases o with ⟨hs, vq⟩
  rcases vq with e | q
  · exact ⟨rfl, rfl, rfl⟩
  · rcases q with ⟨qs, qq⟩
    rcases qq with _ | query
    · exact ⟨rfl, rfl, rfl⟩
    · by_cases hq : qs = "ready" <;>
        simp [VoiceRenderer.pollQueryPhase, hq, VoiceRenderer.updateUI, VoiceRenderer.subStart]

/-- The poll body releases the counter and does not touch the control
flags. -/
theorem vr_pollBody_preserved (s : VoiceRenderer.St) (o : VoiceRenderer.PollOracle) :
    (VoiceRenderer.pollBody s o).activePolls = s.activePolls - 1 ∧
    (VoiceRenderer.pollBody s o).inputDisabled = s.inputDisabled ∧
    (VoiceRenderer.pollBody s o).sendDisabled = s.sendDisabled := by
  have hqp := vr_pollQueryPhase_preserved s o
  rcases ho : o with ⟨hs, vq⟩
  rcases hs with e | h
  · simp [VoiceRenderer.pollBody, VoiceRenderer.updateUI]
  · rcases h with ⟨hst, hurl⟩
    rcases hurl with _ | url
    · rw [ho] at hqp
      simp [VoiceRenderer.pollBody, hqp.1, hqp.2.1, hqp.2.2]
    · by_cases hr : hst = "ready"
      · simp [VoiceRenderer.pollBody, hr, VoiceRenderer.playAudio, VoiceRenderer.updateUI]
      · rw [ho] at hqp
        simp [VoiceRenderer.pollBody, hr, hqp.1, hqp.2.1, hqp.2.2]

/-- Submission completion does not touch the poll counter or the control
flags. -/
theorem vr_subFinish_preserved (s : VoiceRenderer.St) (m : VoiceRenderer.Mode)
    (o : VoiceRenderer.SubOracle) :
    (VoiceRenderer.subFinish s m o).activePolls = s.activePolls ∧
    (VoiceRenderer.subFinish s m o).inputDisabled = s.inputDisabled ∧
    (VoiceRenderer.subFinish s m o).sendDisabled = s.sendDisabled := by
  rcases o with ⟨chat, tts, pe⟩
  cases m <;> cases tts <;>
    simp [VoiceRenderer.subFinish, VoiceRenderer.updateUI, VoiceRenderer.playAudio,
      VoiceRenderer.getAudioURL]

/-- Audio completion does not touch the poll counter or the control
flags. -/
theorem vr_audioComplete_preserved (s : VoiceRenderer.St) (errored : Bool) :
    (VoiceRenderer.audioComplete s errored).activePolls = s.activePolls ∧
    (VoiceRenderer.audioComplete s errored).inputDisabled = s.inputDisabled ∧
    (VoiceRenderer.audioComplete s errored).sendDisabled = s.sendDisabled := by
  rcases hcb : s.pendingAudioCallback with _ | cb
  · cases errored <;> simp [VoiceRenderer.audioComplete, VoiceRenderer.updateUI, hcb]
  · cases cb <;> cases errored <;>
      simp [VoiceRenderer.audioComplete, VoiceRenderer.updateUI, hcb]

/-- The send-button click listener does not touch the poll counter or
the control flags. -/
theorem vr_sendClick_preserved (s : VoiceRenderer.St) :
    (VoiceRenderer.sendClick s).activePolls = s.activePolls ∧
    (VoiceRenderer.sendClick s).inputDisabled = s.inputDisabled ∧
    (VoiceRenderer.sendClick s).sendDisabled = s.sendDisabled := by
  by_cases h : strTrim s.inputValue = "" <;>
    simp [VoiceRenderer.sendClick, h, VoiceRenderer.subStart, VoiceRenderer.updateUI]

/-- In every reachable state of the voice revision at most one poll is
outstanding: the counter is taken only under the guard. -/
theorem vrPollsBound : ∀ s, VoiceRenderer.Reachable s → s.activePolls ≤ 1 := by
  intro s h
  induction h with
  | initial t0 => simp [VoiceRenderer.initSt, VoiceRenderer.updateUI]
  | typeInput v _ ih => simpa using ih
  | pollBeginStep _ ih =>
    unfold VoiceRenderer.pollBegin
    split
    · exact ih
    · rename_i s' _ hguard
      have := vr_pollGuard_false (by simpa using hguard)
      simp [this.1]
  | pollEndStep o _ _ ih =>
    rw [(vr_pollBody_preserved _ o).1]
    omega
  | sendClickStep _ ih =>
    rw [(vr_sendClick_preserved _).1]
    exact ih
  | subFinishStep m o _ _ ih =>
    rw [(vr_subFinish_preserved _ m o).1]
    exact ih
  | audioCompleteStep errored _ _ ih =>
    rw [(vr_audioComplete_preserved _ errored).1]
    exact ih

/-- The voice revision never disables the chat input or the send button,
in any reachable state. -/
theorem vrControlsEnabled : ∀ s, VoiceRenderer.Reachable s →
    s.inputDisabled = false ∧ s.sendDisabled = false := by
  intro s h
  induction h with
  | initial t0 => simp [VoiceRenderer.initSt, VoiceRenderer.updateUI]
  | typeInput v _ ih => simpa using ih
  | pollBeginStep _ ih =>
    unfold VoiceRenderer.pollBegin
    split
    · exact ih
    · simpa using ih
  | pollEndStep o _ _ ih =>
    rw [(vr_pollBody_preserved _ o).2.1, (vr_pollBody_preserved _ o).2.2]
    exact ih
  | sendClickStep _ ih =>
    rw [(vr_sendClick_preserved _).2.1, (vr_sendClick_preserved _).2.2]
    exact ih
  | subFinishStep m o _ _ ih =>
    rw [(vr_subFinish_preserved _ m o).2.1, (vr_subFinish_preserved _ m o).2.2]
    exact ih
  | audioCompleteStep errored _ _ ih =>
    rw [(vr_audioComplete_preserved _ errored).2.1, (vr_audioComplete_preserved _ errored).2.2]
    exact ih

/-- The voice-query phase issues the voice-query request and possibly
the chat dispatch, in that order. -/
theorem vr_pollQueryPhase_reqLog (s : VoiceRenderer.St) (o : VoiceRenderer.PollOracle) :
    (VoiceRenderer.pollQueryPhase s o).reqLog = s.reqLog ++ [VoiceRenderer.Req.getVoiceQuery] ∨
    (VoiceRenderer.pollQueryPhase s o).reqLog
      = s.reqLog ++ [VoiceRenderer.Req.getVoiceQuery, VoiceRenderer.Req.chat] := by
  rcases o with ⟨hs, vq⟩
  rcases vq with e | q
  · left
    rfl
  · rcases q with ⟨qs, qq⟩
    rcases qq with _ | query
    · left
      rfl
    · by_cases hq : qs = "ready"
      · right
        simp [VoiceRenderer.pollQueryPhase, hq, VoiceRenderer.updateUI, VoiceRenderer.subStart]
      · left
        simp [VoiceRenderer.pollQueryPhase, hq]

/-- Each poll invocation either is suppressed by the guard and changes
nothing, or issues the handshake request first, then possibly the
voice-query request, then possibly the chat dispatch. -/
theorem vr_checkBackendStatus_reqLog (s : VoiceRenderer.St) (o : VoiceRenderer.PollOracle) :
    (VoiceRenderer.pollGuard s = true ∧ VoiceRenderer.checkBackendStatus s o = s) ∨
    (VoiceRenderer.pollGuard s = false ∧ ∃ d,
      (VoiceRenderer.checkBackendStatus s o).reqLog = s.reqLog ++ d ∧
      (d = [VoiceRenderer.Req.getHandshake] ∨
       d = [VoiceRenderer.Req.getHandshake, VoiceRenderer.Req.getVoiceQuery] ∨
       d = [VoiceRenderer.Req.getHandshake, VoiceRenderer.Req.getVoiceQuery,
            VoiceRenderer.Req.chat])) := by
  by_cases hg : VoiceRenderer.pollGuard s = true
  · left
    exact ⟨hg, by simp [VoiceRenderer.checkBackendStatus, hg]⟩
  · right
    refine ⟨by simpa using hg, ?_⟩
    have hbegin : VoiceRenderer.pollBegin s
        = { s with activePolls := s.activePolls + 1,
                   reqLog := s.reqLog ++ [VoiceRenderer.Req.getHandshake] } := by
      simp [VoiceRenderer.pollBegin, hg]
    have hcbs : VoiceRenderer.checkBackendStatus s o
        = VoiceRenderer.pollBody (VoiceRenderer.pollBegin s) o := by
      simp [VoiceRenderer.checkBackendStatus, hg]
    rw [hcbs, hbegin]
    rcases o with ⟨hs, vq⟩
    rcases hs with e | h
    · exact ⟨[VoiceRenderer.Req.getHandshake], by simp [VoiceRenderer.pollBody, VoiceRenderer.updateUI], Or.inl rfl⟩
    · rcases h with ⟨hst, hurl⟩
      rcases hurl with _ | url
      · rcases vr_pollQueryPhase_reqLog
            { s with activePolls := s.activePolls + 1,
                     reqLog := s.reqLog ++ [VoiceRenderer.Req.getHandshake] }
            ⟨Except.ok ⟨hst, none⟩, vq⟩ with hq | hq
        · exact ⟨[VoiceRenderer.Req.getHandshake, VoiceRenderer.Req.getVoiceQuery],
            by simp only [VoiceRenderer.pollBody]; rw [hq]; simp, Or.inr (Or.inl rfl)⟩
        · exact ⟨[VoiceRenderer.Req.getHandshake, VoiceRenderer.Req.getVoiceQuery,
              VoiceRenderer.Req.chat],
            by simp only [VoiceRenderer.pollBody]; rw [hq]; simp, Or.inr (Or.inr rfl)⟩
      · by_cases hr : hst = "ready"
        · exact ⟨[VoiceRenderer.Req.getHandshake],
            by simp [VoiceRenderer.pollBody, hr, VoiceRenderer.playAudio, VoiceRenderer.updateUI],
            Or.inl rfl⟩
        · rcases vr_pollQueryPhase_reqLog
              { s with activePolls := s.activePolls + 1,
                       reqLog := s.reqLog ++ [VoiceRenderer.Req.getHandshake] }
              ⟨Except.ok ⟨hst, some url⟩, vq⟩ with hq | hq
          · exact ⟨[VoiceRenderer.Req.getHandshake, VoiceRenderer.Req.getVoiceQuery],
              by simp only [VoiceRenderer.pollBody, hr, if_false]; rw [hq]; simp,
              Or.inr (Or.inl rfl)⟩
          · exact ⟨[VoiceRenderer.Req.getHandshake, VoiceRenderer.Req.getVoiceQuery,
                VoiceRenderer.Req.chat],
              by simp only [VoiceRenderer.pollBody, hr, if_false]; rw [hq]; simp,
              Or.inr (Or.inr rfl)⟩

/-- A ready handshake that carries an audio url makes the poll cycle
exit after the handshake fetch alone. -/
theorem vr_handshake_suppresses (s : VoiceRenderer.St) (o : VoiceRenderer.PollOracle)
    (h : VoiceRenderer.HandshakeData) (url : String)
    (hh : o.handshake = Except.ok h) (hready : h.status = "ready")
    (hurl : h.audio_url = some url) (hg : VoiceRenderer.pollGuard s = false) :
    (VoiceRenderer.checkBackendStatus s o).reqLog
      = s.reqLog ++ [VoiceRenderer.Req.getHandshake] := by
  have hcbs : VoiceRenderer.checkBackendStatus s o
      = VoiceRenderer.pollBody (VoiceRenderer.pollBegin s) o := by
    simp [VoiceRenderer.checkBackendStatus, hg]
  have hbegin : VoiceRenderer.pollBegin s
      = { s with activePolls := s.activePolls + 1,
                 reqLog := s.reqLog ++ [VoiceRenderer.Req.getHandshake] } := by
    simp [VoiceRenderer.pollBegin, hg]
  rw [hcbs, hbegin]
  rcases o with ⟨hs, vq⟩
  simp only at hh
  subst hh
  rcases h with ⟨hst, hu⟩
  simp only at hready hurl
  subst hready hurl
  simp [VoiceRenderer.pollBody, VoiceRenderer.playAudio, VoiceRenderer.updateUI]

/-- Every completed poll invocation leaves the counter where it was. -/
theorem vr_checkBackendStatus_activePolls (s : VoiceRenderer.St) (o : VoiceRenderer.PollOracle) :
    (VoiceRenderer.checkBackendStatus s o).activePolls = s.activePolls := by
  unfold VoiceRenderer.checkBackendStatus
  split
  · rfl
  · rename_i hg
    rw [(vr_pollBody_preserved _ o).1]
    have hbegin : VoiceRenderer.pollBegin s
        = { s with activePolls := s.activePolls + 1,
                   reqLog := s.reqLog ++ [VoiceRenderer.Req.getHandshake] } := by
      simp [VoiceRenderer.pollBegin, by simpa using hg]
    rw [hbegin]
    simp

/-- A fetch failure during an unsuppressed poll lands in the catch
branch: IDLE with the API Error status text. -/
theorem vr_pollFailure_result (s : VoiceRenderer.St) (o : VoiceRenderer.PollOracle)
    (hg : VoiceRenderer.pollGuard s = false) (hf : VoiceRenderer.pollFailure o = true) :
    (VoiceRenderer.checkBackendStatus s o).interaction = VoiceRenderer.UIState.IDLE ∧
    (VoiceRenderer.checkBackendStatus s o).statusTextContent = "API Error" := by
  have hcbs : VoiceRenderer.checkBackendStatus s o
      = VoiceRenderer.pollBody (VoiceRenderer.pollBegin s) o := by
    simp [VoiceRenderer.checkBackendStatus, hg]
  rw [hcbs]
  rcases o with ⟨hs, vq⟩
  rcases hs with e | h
  · constructor <;> simp [VoiceRenderer.pollBody, VoiceRenderer.updateUI]
  · rcases h with ⟨hst, hurl⟩
    rcases hurl with _ | url
    · rcases vq with e | q
      · constructor <;>
          simp [VoiceRenderer.pollBody, VoiceRenderer.pollQueryPhase, VoiceRenderer.updateUI]
      · simp [VoiceRenderer.pollFailure] at hf
    · by_cases hr : hst = "ready"
      · simp [VoiceRenderer.pollFailure, hr] at hf
      · rcases vq with e | q
        · constructor <;>
            simp [VoiceRenderer.pollBody, hr, VoiceRenderer.pollQueryPhase, VoiceRenderer.updateUI]
        · simp [VoiceRenderer.pollFailure, hr] at hf

/-- C1 counterexample: in the reachable state where a ready voice query
was just dispatched the interaction state is THINKING, the input is
locked in the sense of the specification, and yet the next poll
invocation is not a no-op: it issues backend requests. -/
theorem C1_cex :
    VoiceRenderer.Reachable vrThinkingSt ∧
    VoiceRenderer.lockedState vrThinkingSt = true ∧
    VoiceRenderer.checkBackendStatus vrThinkingSt vrNothingOracle ≠ vrThinkingSt ∧
    (VoiceRenderer.checkBackendStatus vrThinkingSt vrNothingOracle).reqLog
      ≠ vrThinkingSt.reqLog :=
  ⟨VoiceRenderer.Reachable.pollEndStep vrQueryReadyOracle
      (VoiceRenderer.Reachable.pollBeginStep (VoiceRenderer.Reachable.initial 0)) (by decide),
   by decide, by decide, by decide⟩

/-- C1 as amended: a poll invocation is a no-op exactly when a poll is
already in flight or audio is currently playing (the input lock and the
interaction state are not consulted, so polls proceed while THINKING),
and in every reachable state at most one poll is outstanding. -/
theorem C1_amended_polls :
    (∀ s, VoiceRenderer.Reachable s → s.activePolls ≤ 1) ∧
    (∀ (s : VoiceRenderer.St) (o : VoiceRenderer.PollOracle),
      (1 ≤ s.activePolls ∨ s.audioPaused = false) →
      VoiceRenderer.checkBackendStatus s o = s) ∧
    (∀ (s : VoiceRenderer.St) (o : VoiceRenderer.PollOracle),
      ¬(1 ≤ s.activePolls ∨ s.audioPaused = false) →
      (VoiceRenderer.checkBackendStatus s o).reqLog ≠ s.reqLog) := by
  refine ⟨vrPollsBound, ?_, ?_⟩
  · intro s o h
    have hg : VoiceRenderer.pollGuard s = true := (vr_pollGuard_iff s).mpr h
    simp [VoiceRenderer.checkBackendStatus, hg]
  · intro s o h hEq
    have hg : VoiceRenderer.pollGuard s = false := by
      cases hgt : VoiceRenderer.pollGuard s
      · rfl
      · exact absurd ((vr_pollGuard_iff s).mp hgt) h
    rcases vr_checkBackendStatus_reqLog s o with ⟨hgt, _⟩ | ⟨_, d, hd, hcases⟩
    · rw [hg] at hgt
      exact Bool.noConfusion hgt
    · rw [hd] at hEq
      have h0 : s.reqLog ++ d = s.reqLog ++ [] := by simpa using hEq
      have hnil : d = [] := List.append_cancel_left h0
      rcases hcases with rfl | rfl | rfl <;> simp at hnil

/-- C1 amended witness at concrete states. -/
theorem C1_amended_polls_witness :
    (VoiceRenderer.initSt 0).activePolls ≤ 1 ∧
    VoiceRenderer.checkBackendStatus { VoiceRenderer.initSt 0 with audioPaused := false }
        vrNothingOracle
      = { VoiceRenderer.initSt 0 with audioPaused := false } ∧
    (VoiceRenderer.checkBackendStatus (VoiceRenderer.initSt 0) vrNothingOracle).reqLog
      ≠ (VoiceRenderer.initSt 0).reqLog :=
  ⟨C1_amended_polls.1 _ (VoiceRenderer.Reachable.initial 0),
   C1_amended_polls.2.1 _ _ (Or.inr rfl),
   C1_amended_polls.2.2 _ _ (by decide)⟩

/-- C2: in the voice revision the state THINKING is reachable with the
chat input and the send button still enabled; the revision never sets
the disabled flags, contradicting the claimed lock invariant (the
text-mode revision, which defines setInputLock, does satisfy it). -/
theorem C2_voice_thinking_not_locked :
    VoiceRenderer.Reachable vrThinkingSt ∧
    vrThinkingSt.interaction = VoiceRenderer.UIState.THINKING ∧
    vrThinkingSt.inputDisabled = false ∧
    vrThinkingSt.sendDisabled = false :=
  ⟨VoiceRenderer.Reachable.pollEndStep vrQueryReadyOracle
      (VoiceRenderer.Reachable.pollBeginStep (VoiceRenderer.Reachable.initial 0)) (by decide),
   by decide, by decide, by decide⟩

/-- C3: every submission, in both revisions, for every question, mode
and backend outcome, ends with the interaction state IDLE and input
unlocked (for the voice revision the whole cycle including audio
playback completion is considered, and the control flags are never
disabled along reachable states). -/
theorem C3_submission_terminates_idle_unlocked :
    (∀ (s : TextRenderer.St) (q : String) (o : TextRenderer.StreamOutcome),
      (TextRenderer.handleChatSubmission s q o).st.interaction = TextRenderer.UIState.IDLE ∧
      (TextRenderer.handleChatSubmission s q o).st.isThinking = false ∧
      (TextRenderer.handleChatSubmission s q o).st.inputDisabled = false ∧
      (TextRenderer.handleChatSubmission s q o).st.sendDisabled = false ∧
      (TextRenderer.handleChatSubmission s q o).st.clearDisabled = false) ∧
    (∀ (s : VoiceRenderer.St) (mode : VoiceRenderer.Mode) (o : VoiceRenderer.SubOracle),
      VoiceRenderer.Reachable s →
      (VoiceRenderer.submissionCycle s mode o).interaction = VoiceRenderer.UIState.IDLE ∧
      (VoiceRenderer.submissionCycle s mode o).inputDisabled = false ∧
      (VoiceRenderer.submissionCycle s mode o).sendDisabled = false) := by
  constructor
  · intro s q o
    cases o <;>
      simp [TextRenderer.handleChatSubmission, TextRenderer.submitTextQuery,
        TextRenderer.updateUI, TextRenderer.setInputLock, TextRenderer.displayMessage]
  · intro s mode o hreach
    have hc := vrControlsEnabled s hreach
    rcases o with ⟨chat, tts, pe⟩
    cases mode <;> cases tts <;> cases pe <;>
      simp [VoiceRenderer.submissionCycle, VoiceRenderer.subStart, VoiceRenderer.subFinish,
        VoiceRenderer.getAudioURL, VoiceRenderer.playAudio, VoiceRenderer.audioComplete,
        VoiceRenderer.updateUI, hc.1, hc.2]

/-- C3 witness: a concrete voice-mode submission from the startup state. -/
theorem C3_submission_terminates_idle_unlocked_witness :
    (VoiceRenderer.submissionCycle (VoiceRenderer.initSt 0) VoiceRenderer.Mode.voice
        { chat := VoiceRenderer.ChatOutcome.answer "ok",
          tts := VoiceRenderer.TtsOutcome.ok "/a.wav",
          playbackErrored := false }).interaction = VoiceRenderer.UIState.IDLE ∧
    (VoiceRenderer.submissionCycle (VoiceRenderer.initSt 0) VoiceRenderer.Mode.voice
        { chat := VoiceRenderer.ChatOutcome.answer "ok",
          tts := VoiceRenderer.TtsOutcome.ok "/a.wav",
          playbackErrored := false }).inputDisabled = false ∧
    (VoiceRenderer.submissionCycle (VoiceRenderer.initSt 0) VoiceRenderer.Mode.voice
        { chat := VoiceRenderer.ChatOutcome.answer "ok",
          tts := VoiceRenderer.TtsOutcome.ok "/a.wav",
          playbackErrored := false }).sendDisabled = false :=
  C3_submission_terminates_idle_unlocked.2 _ _ _ (VoiceRenderer.Reachable.initial 0)

/-- C4: in the voice revision a second send click while the first
submission is still outstanding is accepted: the trace typing hello and
clicking twice is reachable, after the first click one submission is
pending, and after the second click two submissions are pending and two
chat requests have been issued. -/
theorem C4_voice_double_submission :
    VoiceRenderer.Reachable vrTwoClickSt ∧
    vrOneClickSt.pendingSubs = [VoiceRenderer.Mode.text] ∧
    vrTwoClickSt.pendingSubs = [VoiceRenderer.Mode.text, VoiceRenderer.Mode.text] ∧
    vrTwoClickSt.reqLog = [VoiceRenderer.Req.chat, VoiceRenderer.Req.chat] :=
  ⟨VoiceRenderer.Reachable.sendClickStep (VoiceRenderer.Reachable.sendClickStep
      (VoiceRenderer.Reachable.typeInput "hello" (VoiceRenderer.Reachable.initial 0))),
   by decide, by decide, by decide⟩

/-- C5 counterexample: calling clearChatHistory while unlocked with the
confirmation dialog declined leaves the nonempty history (and the whole
state) unchanged, so an unlocked call does not always empty the
history. -/
theorem C5_cex :
    trMsgSt.isThinking = false ∧
    trMsgSt.messages ≠ [] ∧
    TextRenderer.clearChatHistory trMsgSt false 5
      = (TextRenderer.ClearResult.cancelled, trMsgSt) :=
  ⟨by decide, by decide, by decide⟩

/-- C5 as amended: a locked call refuses and changes nothing; an
unlocked call empties the history, regenerates the session id from the
current timestamp and forces IDLE provided the user confirms the
dialog, and is a no-op when the dialog is declined; session ids
regenerated at distinct timestamps differ. -/
theorem C5_amended_clear_history :
    (∀ (s : TextRenderer.St) (c : Bool) (t : Nat), s.isThinking = true →
      TextRenderer.clearChatHistory s c t = (TextRenderer.ClearResult.refused, s)) ∧
    (∀ (s : TextRenderer.St) (t : Nat), s.isThinking = false →
      (TextRenderer.clearChatHistory s true t).1 = TextRenderer.ClearResult.cleared ∧
      (TextRenderer.clearChatHistory s true t).2.messages = [] ∧
      (TextRenderer.clearChatHistory s true t).2.sessionId = mkSessionId t ∧
      (TextRenderer.clearChatHistory s true t).2.interaction = TextRenderer.UIState.IDLE ∧
      (TextRenderer.clearChatHistory s true t).2.isThinking = false) ∧
    (∀ (s : TextRenderer.St) (t : Nat), s.isThinking = false →
      TextRenderer.clearChatHistory s false t = (TextRenderer.ClearResult.cancelled, s)) ∧
    (∀ t u : Nat, t ≠ u → mkSessionId t ≠ mkSessionId u) := by
  refine ⟨?_, ?_, ?_, ?_⟩
  · intro s c t h
    simp [TextRenderer.clearChatHistory, h]
  · intro s t h
    simp [TextRenderer.clearChatHistory, h, TextRenderer.updateUI, TextRenderer.setInputLock]
  · intro s t h
    simp [TextRenderer.clearChatHistory, h]
  · intro t u hne heq
    exact hne (mkSessionId_inj heq)

/-- C5 amended witness at concrete states and timestamps. -/
theorem C5_amended_clear_history_witness :
    TextRenderer.clearChatHistory { trMsgSt with isThinking := true } true 7
      = (TextRenderer.ClearResult.refused, { trMsgSt with isThinking := true }) ∧
    (TextRenderer.clearChatHistory trMsgSt true 7).2.messages = [] ∧
    (TextRenderer.clearChatHistory trMsgSt true 7).2.sessionId = mkSessionId 7 ∧
    TextRenderer.clearChatHistory trMsgSt false 7
      = (TextRenderer.ClearResult.cancelled, trMsgSt) ∧
    mkSessionId 7 ≠ mkSessionId 0 :=
  ⟨C5_amended_clear_history.1 _ _ _ rfl,
   (C5_amended_clear_history.2.1 trMsgSt 7 rfl).2.1,
   (C5_amended_clear_history.2.1 trMsgSt 7 rfl).2.2.1,
   C5_amended_clear_history.2.2.1 trMsgSt 7 rfl,
   C5_amended_clear_history.2.2.2 7 0 (by decide)⟩

/-- C6: when the stream_chat call fails with HTTP 500, submitTextQuery
resolves to the apologetic message embedding the status and the
controller ends at IDLE unlocked, but the message is never displayed:
the chat history holds only the user message, with no assistant entry. -/
theorem C6_streaming_apology_not_displayed :
    (TextRenderer.handleChatSubmission (TextRenderer.initSt 0) "What is RAG?"
        (TextRenderer.StreamOutcome.httpErr 500)).response
      = some "My apologies, Boss. The RAG system encountered an error (HTTP 500)." ∧
    (TextRenderer.handleChatSubmission (TextRenderer.initSt 0) "What is RAG?"
        (TextRenderer.StreamOutcome.httpErr 500)).st.messages
      = ["<strong>Boss:</strong> What is RAG?"] ∧
    (TextRenderer.handleChatSubmission (TextRenderer.initSt 0) "What is RAG?"
        (TextRenderer.StreamOutcome.httpErr 500)).st.interaction = TextRenderer.UIState.IDLE ∧
    (TextRenderer.handleChatSubmission (TextRenderer.initSt 0) "What is RAG?"
        (TextRenderer.StreamOutcome.httpErr 500)).st.isThinking = false :=
  ⟨by decide, by decide, by decide, by decide⟩

/-- C7: the rendered streamed text after each chunk is a prefix of the
rendered text after the next chunk, and the value submitTextQuery
resolves to on success is the concatenation of all chunks trimmed. -/
theorem C7_stream_prefix_stable :
    (∀ (chunks : List String) (i : Nat),
      ∃ t, TextRenderer.renderedAfter chunks i ++ t = TextRenderer.renderedAfter chunks (i + 1)) ∧
    (∀ (s : TextRenderer.St) (q : String) (chunks : List String),
      (TextRenderer.submitTextQuery s q (TextRenderer.StreamOutcome.ok chunks)).response
        = strTrim (String.join chunks)) := by
  constructor
  · intro chunks i
    refine ⟨TextRenderer.streamFold chunks[i]?.toList, ?_⟩
    unfold TextRenderer.renderedAfter TextRenderer.fullTextAfter TextRenderer.jarvisRender
    rw [List.take_succ, streamFold_append, String.append_assoc]
  · intro s q chunks
    rfl

/-- C8 counterexample: a handshake response with status ready but no
audio url does not suppress the voice-query check: the poll cycle still
issues the voice-query request. -/
theorem C8_cex :
    vrReadyNoUrlOracle.handshake
      = Except.ok ({ status := "ready", audio_url := none } : VoiceRenderer.HandshakeData) ∧
    VoiceRenderer.Req.getVoiceQuery
      ∈ (VoiceRenderer.checkBackendStatus (VoiceRenderer.initSt 0) vrReadyNoUrlOracle).reqLog :=
  ⟨rfl, by decide⟩

/-- C8 as amended: within every unsuppressed poll cycle the handshake
request is issued first, the voice-query request (when issued at all)
comes after it, and a handshake response that is ready and carries an
audio url makes the cycle exit after the handshake request alone. -/
theorem C8_amended_handshake_priority :
    (∀ (s : VoiceRenderer.St) (o : VoiceRenderer.PollOracle) (h : VoiceRenderer.HandshakeData)
        (url : String), o.handshake = Except.ok h → h.status = "ready" →
        h.audio_url = some url → VoiceRenderer.pollGuard s = false →
        (VoiceRenderer.checkBackendStatus s o).reqLog
          = s.reqLog ++ [VoiceRenderer.Req.getHandshake]) ∧
    (∀ (s : VoiceRenderer.St) (o : VoiceRenderer.PollOracle),
      VoiceRenderer.checkBackendStatus s o = s ∨
      ∃ d, (VoiceRenderer.checkBackendStatus s o).reqLog = s.reqLog ++ d ∧
        (d = [VoiceRenderer.Req.getHandshake] ∨
         d = [VoiceRenderer.Req.getHandshake, VoiceRenderer.Req.getVoiceQuery] ∨
         d = [VoiceRenderer.Req.getHandshake, VoiceRenderer.Req.getVoiceQuery,
              VoiceRenderer.Req.chat])) := by
  constructor
  · intro s o h url hh hr hu hg
    exact vr_handshake_suppresses s o h url hh hr hu hg
  · intro s o
    rcases vr_checkBackendStatus_reqLog s o with ⟨_, heq⟩ | ⟨_, d, hd, hc⟩
    · exact Or.inl heq
    · exact Or.inr ⟨d, hd, hc⟩

/-- C8 amended witness at a concrete ready handshake with url. -/
theorem C8_amended_handshake_priority_witness :
    (VoiceRenderer.checkBackendStatus (VoiceRenderer.initSt 0) vrHsReadyOracle).reqLog
      = (VoiceRenderer.initSt 0).reqLog ++ [VoiceRenderer.Req.getHandshake] ∧
    (VoiceRenderer.checkBackendStatus (VoiceRenderer.initSt 0) vrNothingOracle
        = VoiceRenderer.initSt 0 ∨
      ∃ d, (VoiceRenderer.checkBackendStatus (VoiceRenderer.initSt 0) vrNothingOracle).reqLog
          = (VoiceRenderer.initSt 0).reqLog ++ d ∧
        (d = [VoiceRenderer.Req.getHandshake] ∨
         d = [VoiceRenderer.Req.getHandshake, VoiceRenderer.Req.getVoiceQuery] ∨
         d = [VoiceRenderer.Req.getHandshake, VoiceRenderer.Req.getVoiceQuery,
              VoiceRenderer.Req.chat])) :=
  ⟨C8_amended_handshake_priority.1 (VoiceRenderer.initSt 0) vrHsReadyOracle
      { status := "ready", audio_url := some "/audio/hs.wav" } "/audio/hs.wav"
      rfl rfl rfl (by decide),
   C8_amended_handshake_priority.2 (VoiceRenderer.initSt 0) vrNothingOracle⟩

/-- C9: every completed poll invocation leaves the activePolls counter
unchanged, and any fetch failure during an unsuppressed cycle lands the
controller at IDLE with the visible API Error status text. -/
theorem C9_poll_failure_idle_token_released :
    (∀ (s : VoiceRenderer.St) (o : VoiceRenderer.PollOracle),
      (VoiceRenderer.checkBackendStatus s o).activePolls = s.activePolls) ∧
    (∀ (s : VoiceRenderer.St) (o : VoiceRenderer.PollOracle),
      VoiceRenderer.pollGuard s = false → VoiceRenderer.pollFailure o = true →
      (VoiceRenderer.checkBackendStatus s o).interaction = VoiceRenderer.UIState.IDLE ∧
      (VoiceRenderer.checkBackendStatus s o).statusTextContent = "API Error") :=
  ⟨vr_checkBackendStatus_activePolls, vr_pollFailure_result⟩

/-- C9 witness at the startup state with both fetches failing. -/
theorem C9_poll_failure_idle_token_released_witness :
    (VoiceRenderer.checkBackendStatus (VoiceRenderer.initSt 0) vrBothFailOracle).activePolls
      = (VoiceRenderer.initSt 0).activePolls ∧
    (VoiceRenderer.checkBackendStatus (VoiceRenderer.initSt 0) vrBothFailOracle).interaction
      = VoiceRenderer.UIState.IDLE ∧
    (VoiceRenderer.checkBackendStatus (VoiceRenderer.initSt 0) vrBothFailOracle).statusTextContent
      = "API Error" :=
  ⟨C9_poll_failure_idle_token_released.1 (VoiceRenderer.initSt 0) vrBothFailOracle,
   (C9_poll_failure_idle_token_released.2 (VoiceRenderer.initSt 0) vrBothFailOracle
      (by decide) (by decide)).1,
   (C9_poll_failure_idle_token_released.2 (VoiceRenderer.initSt 0) vrBothFailOracle
      (by decide) (by decide)).2⟩

/-- C10: a send triggered with an input whose trimmed value is empty
does nothing in either revision: no message is appended, no request is
issued and the whole state is unchanged; the Enter key goes through the
same click handler. -/
theorem C10_empty_send_noop :
    (∀ (s : TextRenderer.St) (o : TextRenderer.StreamOutcome), strTrim s.inputValue = "" →
      TextRenderer.sendClick s o = { st := s, response := none, reqs := [] }) ∧
    (∀ (s : TextRenderer.St) (o : TextRenderer.StreamOutcome), strTrim s.inputValue = "" →
      TextRenderer.enterKeypress s o = { st := s, response := none, reqs := [] }) ∧
    (∀ s : VoiceRenderer.St, strTrim s.inputValue = "" → VoiceRenderer.sendClick s = s) := by
  refine ⟨?_, ?_, ?_⟩
  · intro s o h
    simp [TextRenderer.sendClick, h]
  · intro s o h
    simp [TextRenderer.enterKeypress, TextRenderer.sendClick, h]
  · intro s h
    simp [VoiceRenderer.sendClick, h]

/-- C10 witness: whitespace-only input is rejected in both revisions. -/
theorem C10_empty_send_noop_witness :
    TextRenderer.sendClick { TextRenderer.initSt 0 with inputValue := "   " }
        (TextRenderer.StreamOutcome.ok [])
      = { st := { TextRenderer.initSt 0 with inputValue := "   " }, response := none, reqs := [] } ∧
    VoiceRenderer.sendClick { VoiceRenderer.initSt 0 with inputValue := "   " }
      = { VoiceRenderer.initSt 0 with inputValue := "   " } :=
  ⟨C10_empty_send_noop.1 _ _ (by decide), C10_empty_send_noop.2.2 _ (by decide)⟩
